import Mathlib

/-!
Verification of the Skeleton Key pattern-detection and aggregation engine
(`skeleton.py`) against its natural-language specification.

The Python source is shallowly embedded: keyword tables become Lean lists,
detectors become pure functions over `String`, float scores become `ℚ`
(the entropy computation, which uses a transcendental `log2`, is modelled
over `ℝ`), the mutable `InfluenceGraph`, `CrumbTrail` and `CollectiveInsight`
objects become explicit state records, and Python's stable
`list.sort(key=..., reverse=True)` becomes `List.insertionSort` with the
relation "left key is at least right key" (both are stable sorts by the same
key, hence produce identical output).

Fields that are nondeterministic external inputs in the source
(`uuid4` ids of findings, wall-clock timestamps such as `detected_at`,
`saved_at` and `contributed_at`) are omitted from the embedded records;
no claim under verification refers to them.  Crumb ids and `created_at`
strings ARE kept, because the trail round-trip claim is about them: they
are modelled as ordinary string fields fixed at record creation.
-/

namespace SkeletonKey

/- Batteries seals the `Rat` arithmetic behind `@[irreducible]`, which stops
`decide` from evaluating concrete rational scores; witnesses and
counterexamples below evaluate the embedded detectors on concrete inputs,
so the four sealed operations are restored to normal reducibility here
(proof checking is unaffected: the kernel never honored the seal). -/
attribute [local semireducible] Rat.mul Rat.add Rat.sub Rat.inv

/-! ### Basic string machinery

`s in text_lower` in Python is a substring test on the lower-cased text.
`occursIn needle hay` decides whether `needle` occurs contiguously in `hay`;
`lowerList` mirrors `str.lower` (all inputs and table entries are ASCII,
where `Char.toLower` and Python's `str.lower` agree).  Note the source
lower-cases only the scanned text, never the signal tables, so table entries
containing upper-case letters (e.g. "AI", "GDP") can never match. -/

def lowerList (l : List Char) : List Char := l.map Char.toLower

def occursIn (needle : List Char) : List Char → Bool
  | [] => needle.isEmpty
  | c :: rest => needle.isPrefixOf (c :: rest) || occursIn needle rest

/-- Python `round(x, 3)`: scores are displayed rounded to three decimals.
Modelled with Mathlib's `round` (half away-from-zero at ties, where Python's
float `round` is ties-to-even; no value appearing in the verified claims is a
half-thousandth tie, so the two agree on everything proved here). -/
def round3 (q : ℚ) : ℚ := ((round (q * 1000) : ℤ) : ℚ) / 1000

/-- Stable descending sort by a rational-valued key: the semantics of
Python's `list.sort(key=lambda x: k(x), reverse=True)` (Timsort is stable;
stable sorts by the same key coincide, and `List.insertionSort` with this
relation is stable and descending). -/
def sortDesc {α : Type} (key : α → ℚ) (l : List α) : List α :=
  l.insertionSort (fun a b => key b ≤ key a)

/-! ### Enumerations -/

inductive FrameType where
  | NORMATIVE | LINGUISTIC | INSTITUTIONAL | TEMPORAL
  | EPISTEMIC | ECONOMIC | TECHNOLOGICAL | MYTHOLOGICAL
deriving DecidableEq, Inhabited

inductive MaskType where
  | AUTHORITY | BENEVOLENCE | NEUTRALITY | MERITOCRACY
  | INEVITABILITY | TRADITION | INNOVATION | EXPERTISE
deriving DecidableEq, Inhabited

inductive SpellType where
  | ORIGIN_MYTH | PROGRESS_NARRATIVE | FEAR_NARRATIVE | SCARCITY_SPELL
  | IDENTITY_SPELL | COMPLEXITY_SPELL | UNITY_SPELL | BINARY_SPELL
deriving DecidableEq, Inhabited, Fintype

inductive PrisonType where
  | CHOICE_ARCHITECTURE | OVERTON_WINDOW | DEBT_STRUCTURE | CREDENTIAL_GATE
  | PLATFORM_LOCK | TEMPORAL_TRAP | IDENTITY_CAGE | LEARNED_HELPLESSNESS
deriving DecidableEq, Inhabited

inductive CrumbType where
  | QUESTION | PATTERN | PARADOX | BRIDGE | MIRROR | TRAIL | SIGNAL
deriving DecidableEq, Inhabited

/-- Python `FrameType.<member>.name`. -/
def FrameType.name : FrameType → String
  | .NORMATIVE => "NORMATIVE"
  | .LINGUISTIC => "LINGUISTIC"
  | .INSTITUTIONAL => "INSTITUTIONAL"
  | .TEMPORAL => "TEMPORAL"
  | .EPISTEMIC => "EPISTEMIC"
  | .ECONOMIC => "ECONOMIC"
  | .TECHNOLOGICAL => "TECHNOLOGICAL"
  | .MYTHOLOGICAL => "MYTHOLOGICAL"

/-- Python `frame_type.name.title()` as used in `detect_frames`. -/
def frameTypeTitle : FrameType → String
  | .NORMATIVE => "Normative"
  | .LINGUISTIC => "Linguistic"
  | .INSTITUTIONAL => "Institutional"
  | .TEMPORAL => "Temporal"
  | .EPISTEMIC => "Epistemic"
  | .ECONOMIC => "Economic"
  | .TECHNOLOGICAL => "Technological"
  | .MYTHOLOGICAL => "Mythological"

def MaskType.name : MaskType → String
  | .AUTHORITY => "AUTHORITY"
  | .BENEVOLENCE => "BENEVOLENCE"
  | .NEUTRALITY => "NEUTRALITY"
  | .MERITOCRACY => "MERITOCRACY"
  | .INEVITABILITY => "INEVITABILITY"
  | .TRADITION => "TRADITION"
  | .INNOVATION => "INNOVATION"
  | .EXPERTISE => "EXPERTISE"

def SpellType.name : SpellType → String
  | .ORIGIN_MYTH => "ORIGIN_MYTH"
  | .PROGRESS_NARRATIVE => "PROGRESS_NARRATIVE"
  | .FEAR_NARRATIVE => "FEAR_NARRATIVE"
  | .SCARCITY_SPELL => "SCARCITY_SPELL"
  | .IDENTITY_SPELL => "IDENTITY_SPELL"
  | .COMPLEXITY_SPELL => "COMPLEXITY_SPELL"
  | .UNITY_SPELL => "UNITY_SPELL"
  | .BINARY_SPELL => "BINARY_SPELL"

/-- Python `spell_type.name.replace('_', ' ').title()` as used in `analyze_spells`. -/
def spellTypeTitle : SpellType → String
  | .ORIGIN_MYTH => "Origin Myth"
  | .PROGRESS_NARRATIVE => "Progress Narrative"
  | .FEAR_NARRATIVE => "Fear Narrative"
  | .SCARCITY_SPELL => "Scarcity Spell"
  | .IDENTITY_SPELL => "Identity Spell"
  | .COMPLEXITY_SPELL => "Complexity Spell"
  | .UNITY_SPELL => "Unity Spell"
  | .BINARY_SPELL => "Binary Spell"

def PrisonType.name : PrisonType → String
  | .CHOICE_ARCHITECTURE => "CHOICE_ARCHITECTURE"
  | .OVERTON_WINDOW => "OVERTON_WINDOW"
  | .DEBT_STRUCTURE => "DEBT_STRUCTURE"
  | .CREDENTIAL_GATE => "CREDENTIAL_GATE"
  | .PLATFORM_LOCK => "PLATFORM_LOCK"
  | .TEMPORAL_TRAP => "TEMPORAL_TRAP"
  | .IDENTITY_CAGE => "IDENTITY_CAGE"
  | .LEARNED_HELPLESSNESS => "LEARNED_HELPLESSNESS"

/-- Python `prison_type.name.replace('_', ' ').title()` as used in `map_prisons`. -/
def prisonTypeTitle : PrisonType → String
  | .CHOICE_ARCHITECTURE => "Choice Architecture"
  | .OVERTON_WINDOW => "Overton Window"
  | .DEBT_STRUCTURE => "Debt Structure"
  | .CREDENTIAL_GATE => "Credential Gate"
  | .PLATFORM_LOCK => "Platform Lock"
  | .TEMPORAL_TRAP => "Temporal Trap"
  | .IDENTITY_CAGE => "Identity Cage"
  | .LEARNED_HELPLESSNESS => "Learned Helplessness"

def CrumbType.name : CrumbType → String
  | .QUESTION => "QUESTION"
  | .PATTERN => "PATTERN"
  | .PARADOX => "PARADOX"
  | .BRIDGE => "BRIDGE"
  | .MIRROR => "MIRROR"
  | .TRAIL => "TRAIL"
  | .SIGNAL => "SIGNAL"

/-- Python `CrumbType[name]`: lookup of an enum member by name, `none`
modelling the `KeyError` raised on an unknown name. -/
def crumbTypeOfName (s : String) : Option CrumbType :=
  if s = "QUESTION" then some .QUESTION
  else if s = "PATTERN" then some .PATTERN
  else if s = "PARADOX" then some .PARADOX
  else if s = "BRIDGE" then some .BRIDGE
  else if s = "MIRROR" then some .MIRROR
  else if s = "TRAIL" then some .TRAIL
  else if s = "SIGNAL" then some .SIGNAL
  else none

/-! ### Data models (dataclasses of section II of the source) -/

/-- Dataclass `Frame` (`frame_id` and `detected_at` omitted: uuid / wall clock). -/
structure Frame where
  name : String := ""
  frame_type : FrameType := .NORMATIVE
  description : String := ""
  unspoken_rules : List String := []
  naturalized_assumptions : List String := []
  forbidden_questions : List String := []
  beneficiaries : List String := []
  edges_of_thinkable : List String := []
  strength : ℚ := 0
  visibility : ℚ := 0
deriving DecidableEq, Inhabited

/-- Dataclass `Mask` (`mask_id` omitted: uuid). -/
structure Mask where
  actor : String := ""
  mask_type : MaskType := .AUTHORITY
  formal_role : String := ""
  actual_function : String := ""
  performance : String := ""
  hidden_hand : String := ""
  dependencies : List String := []
  vulnerabilities : List String := []
deriving DecidableEq, Inhabited

/-- Dataclass `Spell` (`spell_id` omitted: uuid). -/
structure Spell where
  name : String := ""
  spell_type : SpellType := .ORIGIN_MYTH
  narrative : String := ""
  emotional_payload : String := ""
  hidden_assumption : String := ""
  erasure : String := ""
  cui_bono : String := ""
  counter_narrative : String := ""
  potency : ℚ := 0
  reach : ℚ := 0
deriving DecidableEq, Inhabited

/-- Dataclass `Prison` (`prison_id` omitted: uuid). -/
structure Prison where
  name : String := ""
  prison_type : PrisonType := .CHOICE_ARCHITECTURE
  description : String := ""
  missing_choices : List String := []
  forbidden_paths : List String := []
  unimaginable_futures : List String := []
  invisible_walls : List String := []
  exit_conditions : List String := []
  elegance : ℚ := 0
deriving DecidableEq, Inhabited

/-- Dataclass `Crumb`.  `crumb_id` and `created_at` are kept as opaque
strings fixed at creation: the trail round-trip claim is about them. -/
structure Crumb where
  crumb_id : String := ""
  crumb_type : CrumbType := .QUESTION
  content : String := ""
  context : String := ""
  visibility : String := "hidden"
  target_audience : String := ""
  decay_time : Option String := none
  chain_id : Option String := none
  created_at : String := ""
deriving DecidableEq, Inhabited

/-- Dataclass `InfluenceEdge`. -/
structure InfluenceEdge where
  source : String := ""
  target : String := ""
  relation : String := ""
  weight : ℚ := 1/2
  visible : Bool := true
  mask_used : Option String := none
deriving DecidableEq, Inhabited

/-- Dataclass `SystemAnalysis` (`analysis_id` / `analyzed_at` omitted;
`self_examination` is modelled as a presence flag — its content, a
`SelfExamination` record of free-text lists, is irrelevant to every
computation verified here; `seeing_depth` is the enum's string value). -/
structure SystemAnalysis where
  system_name : String := ""
  frames : List Frame := []
  masks : List Mask := []
  spells : List Spell := []
  prisons : List Prison := []
  crumbs : List Crumb := []
  influence_edges : List InfluenceEdge := []
  self_examination : Option Unit := none
  seeing_depth : String := "surface"
deriving DecidableEq, Inhabited

/-- Property `SystemAnalysis.awareness_score`. -/
def awareness_score (a : SystemAnalysis) : ℚ :=
  (min ((a.frames.length : ℚ) / 3) 1
   + min ((a.masks.length : ℚ) / 3) 1
   + min ((a.spells.length : ℚ) / 3) 1
   + min ((a.prisons.length : ℚ) / 3) 1
   + min ((a.influence_edges.length : ℚ) / 5) 1
   + (if a.self_examination.isSome then 1 else 0)) / 6

/-! ### Knowledge structures (the Signal Tables, section III of the source)

Transcribed verbatim, including case: the source never lower-cases table
entries, only the scanned text, so e.g. "AI", "GDP", "C-suite",
"American dream", "real Americans" and "ASAP" can never match. -/

/-- One entry of `FRAME_SIGNALS`: a `FrameType` key with its keyword list
and descriptive fields. -/
structure FrameSignalEntry where
  ftype : FrameType
  signals : List String
  question : String
  reveals : String
  antidote : String

def FRAME_SIGNALS : List FrameSignalEntry := [
  { ftype := .NORMATIVE
    signals := ["normal", "natural", "obvious", "common sense", "everyone knows",
      "that's just how it is", "tradition", "always been", "standard",
      "the way things work", "realistic", "pragmatic", "inevitable",
      "human nature", "the real world"]
    question := "What would change if this were seen as a choice rather than a fact?"
    reveals := "Normative frames disguise social constructions as natural law."
    antidote := "Ask: who decided this was 'normal,' and when?" },
  { ftype := .LINGUISTIC
    signals := ["stakeholder", "human resources", "collateral damage", "externality",
      "disruption", "optimization", "leverage", "synergy", "alignment",
      "market forces", "talent", "assets", "capital", "deliverables",
      "value proposition", "growth", "scale"]
    question := "What does this language conceal about who is affected and how?"
    reveals := "Linguistic frames make violence abstract and people into resources."
    antidote := "Replace each term with plain language and notice what changes." },
  { ftype := .INSTITUTIONAL
    signals := ["policy", "procedure", "compliance", "regulation", "governance",
      "protocol", "due process", "standard operating", "best practice",
      "industry standard", "accreditation", "certification", "authorized",
      "official channels", "chain of command"]
    question := "Who wrote these rules, and what do they protect?"
    reveals := "Institutional frames make power arrangements feel like physics."
    antidote := "Trace each rule to its origin. Someone wrote it. Someone benefits." },
  { ftype := .TEMPORAL
    signals := ["progress", "inevitable", "the future", "moving forward", "behind the times",
      "modernization", "next generation", "legacy", "outdated", "evolving",
      "trajectory", "momentum", "disruption cycle", "paradigm shift",
      "the arc of history", "tipping point"]
    question := "Whose timeline is this, and what does it erase?"
    reveals := "Temporal frames make one group's trajectory feel like destiny."
    antidote := "Ask: inevitable for whom? Progress toward what? Decided by whom?" },
  { ftype := .EPISTEMIC
    signals := ["evidence-based", "data-driven", "peer-reviewed", "scientific consensus",
      "expert opinion", "credible sources", "methodology", "rigorous",
      "statistically significant", "empirical", "objective", "measurable",
      "anecdotal", "unsubstantiated", "misinformation"]
    question := "What ways of knowing are being excluded, and why?"
    reveals := "Epistemic frames determine what counts as knowledge — and who counts as a knower."
    antidote := "Ask: what would a different discipline, culture, or tradition see here?" },
  { ftype := .ECONOMIC
    signals := ["market", "efficiency", "roi", "cost-benefit", "productivity",
      "scarcity", "supply and demand", "rational actor", "incentive",
      "GDP", "profit margin", "bottom line", "valuation", "monetize",
      "free market", "competition", "shareholder value"]
    question := "What is being valued, and what is being discarded?"
    reveals := "Economic frames reduce all value to a single metric and hide the rest."
    antidote := "Name three things this framework cannot measure but that matter enormously." },
  { ftype := .TECHNOLOGICAL
    signals := ["platform", "algorithm", "AI", "automation", "machine learning",
      "digital transformation", "smart", "cloud", "API", "ecosystem",
      "scalable", "disruptive", "innovation", "tech-enabled",
      "frictionless", "seamless", "personalized"]
    question := "What human decisions are hidden inside this technology?"
    reveals := "Technological frames make human choices appear as neutral computation."
    antidote := "Find the humans. Someone designed this. Someone chose the training data. Someone profits." },
  { ftype := .MYTHOLOGICAL
    signals := ["founding fathers", "self-made", "American dream", "invisible hand",
      "meritocracy", "free world", "civilization", "manifest destiny",
      "the people", "our values", "who we are", "heritage", "legacy",
      "promised land", "chosen", "destiny", "greatness"]
    question := "What does this myth authorize, and what does it forbid?"
    reveals := "Mythological frames sacralize power arrangements so they cannot be questioned."
    antidote := "Tell the same story from the perspective of those the myth excludes." }]

/-- One entry of `MASK_SIGNALS`. -/
structure MaskSignalEntry where
  mtype : MaskType
  signals : List String
  behind_the_mask : String
  slip_indicators : List String

def MASK_SIGNALS : List MaskSignalEntry := [
  { mtype := .AUTHORITY
    signals := ["leadership", "executive", "decision-maker", "vision", "strategy",
      "mandate", "direction", "C-suite", "board", "governance"]
    behind_the_mask := "Power is often held not by the visible leaders but by those who set the agenda they enact."
    slip_indicators := ["contradicts own policy", "defers upward", "cannot explain rationale", "reads from script"] },
  { mtype := .BENEVOLENCE
    signals := ["for your own good", "we care", "protecting", "safety", "support",
      "help", "empower", "serve", "community", "wellbeing"]
    behind_the_mask := "Care rhetoric often masks control. True care shares power; false care hoards it."
    slip_indicators := ["help requires compliance", "support has conditions", "empowerment means obedience"] },
  { mtype := .NEUTRALITY
    signals := ["objective", "balanced", "both sides", "unbiased", "fair",
      "neutral", "apolitical", "nonpartisan", "just the facts", "centrist"]
    behind_the_mask := "Claimed neutrality always serves the status quo. The center is not neutral — it is the current arrangement of power."
    slip_indicators := ["frames challengers as extreme", "treats current system as baseline", "equates critique with bias"] },
  { mtype := .MERITOCRACY
    signals := ["earned", "deserved", "talent", "hard work", "achievement",
      "performance", "best and brightest", "top tier", "elite", "competitive"]
    behind_the_mask := "Meritocracy narratives attribute systemic outcomes to individual qualities, hiding the architecture of advantage."
    slip_indicators := ["success correlates with starting position", "failure blamed on individual", "structural advantages unnamed"] },
  { mtype := .INEVITABILITY
    signals := ["no alternative", "the only way", "necessary", "unavoidable",
      "market forces", "economic reality", "there is no choice", "we must",
      "the situation demands", "forced by circumstances"]
    behind_the_mask := "Inevitability is the most powerful mask. When choices vanish, power becomes invisible."
    slip_indicators := ["alternatives existed historically", "other systems do it differently", "someone benefits from 'no choice'"] },
  { mtype := .TRADITION
    signals := ["always been done", "heritage", "custom", "roots", "values",
      "time-tested", "wisdom of the ages", "sacred", "founding principles"]
    behind_the_mask := "Tradition selectively remembers. What is called 'traditional' was once someone's radical innovation."
    slip_indicators := ["the 'tradition' is recent", "it was contested when introduced", "other traditions are excluded"] },
  { mtype := .INNOVATION
    signals := ["disrupt", "transform", "revolutionize", "cutting-edge", "future",
      "breakthrough", "paradigm shift", "next generation", "reimagine"]
    behind_the_mask := "Innovation rhetoric often masks extraction. 'Disruption' frequently means destroying what communities built and selling it back."
    slip_indicators := ["innovation benefits investors most", "disrupted communities not consulted", "problems recreated at scale"] },
  { mtype := .EXPERTISE
    signals := ["expert", "specialist", "authority", "credentials", "certification",
      "qualified", "trained", "professional", "accredited", "peer-reviewed"]
    behind_the_mask := "Expertise is real, but the gatekeeping of expertise is a power structure. Who decides what counts as knowing?"
    slip_indicators := ["experts disagree but one view dominates", "credentials gate access", "lived experience dismissed"] }]

/-- One entry of `SPELL_SIGNALS`. -/
structure SpellSignalEntry where
  stype : SpellType
  signals : List String
  emotional_hook : String
  hidden_function : String
  breaking_question : String

def SPELL_SIGNALS : List SpellSignalEntry := [
  { stype := .ORIGIN_MYTH
    signals := ["founded", "began", "origin", "genesis", "founding", "started with",
      "our story", "once upon", "in the beginning", "from humble beginnings"]
    emotional_hook := "Belonging, legitimacy, pride"
    hidden_function := "Creates loyalty by making the listener part of a sacred story"
    breaking_question := "What does this origin story leave out? Who was already here?" },
  { stype := .PROGRESS_NARRATIVE
    signals := ["better", "improving", "growing", "advancing", "developing",
      "more than ever", "unprecedented", "next level", "forward"]
    emotional_hook := "Hope, optimism, participation"
    hidden_function := "Makes current trajectory feel inevitable and good; resistance feels regressive"
    breaking_question := "Better for whom? By whose metric? At what cost to what?" },
  { stype := .FEAR_NARRATIVE
    signals := ["threat", "danger", "crisis", "enemy", "collapse", "catastrophe",
      "if we don't act now", "at risk", "under attack", "existential"]
    emotional_hook := "Fear, urgency, tribal bonding"
    hidden_function := "Justifies extreme measures and suppresses dissent ('now is not the time')"
    breaking_question := "Who benefits from this fear? What becomes possible when people are afraid?" },
  { stype := .SCARCITY_SPELL
    signals := ["not enough", "limited", "scarce", "running out", "competition",
      "zero-sum", "fight for", "earn your place", "only the best"]
    emotional_hook := "Anxiety, competition, hoarding instinct"
    hidden_function := "Prevents solidarity by making people see each other as competitors for artificially limited resources"
    breaking_question := "Is this truly scarce, or is access being controlled? By whom?" },
  { stype := .IDENTITY_SPELL
    signals := ["we are", "our people", "who we are", "our values", "our kind",
      "real Americans", "true believers", "the faithful", "patriots"]
    emotional_hook := "Belonging, exclusion, tribal identity"
    hidden_function := "Creates in-group that cannot question without losing identity"
    breaking_question := "Who is 'we,' and who is excluded? What happens to those who disagree from within?" },
  { stype := .COMPLEXITY_SPELL
    signals := ["it's complicated", "you wouldn't understand", "technical", "nuanced",
      "leave it to the experts", "too complex", "sophisticated", "intricate"]
    emotional_hook := "Intellectual insecurity, deference, helplessness"
    hidden_function := "Prevents democratic engagement with decisions that affect everyone"
    breaking_question := "Is it truly complex, or is complexity being weaponized to exclude?" },
  { stype := .UNITY_SPELL
    signals := ["together", "united", "one team", "shared purpose", "collective",
      "all of us", "in this together", "common goal", "solidarity"]
    emotional_hook := "Warmth, safety, community feeling"
    hidden_function := "Suppresses legitimate disagreement by framing it as betrayal of the group"
    breaking_question := "Whose version of 'together'? Who set the terms? Who is silenced by 'unity'?" },
  { stype := .BINARY_SPELL
    signals := ["either", "or", "with us", "against us", "right side of history",
      "good vs evil", "black and white", "choose a side", "no middle ground"]
    emotional_hook := "Moral clarity, righteousness, urgency"
    hidden_function := "Eliminates the third option — the one that would reveal the frame itself"
    breaking_question := "What would a third position look like? What does the binary hide?" }]

/-- One entry of `PRISON_SIGNALS`. -/
structure PrisonSignalEntry where
  ptype : PrisonType
  signals : List String
  mechanism : String
  door : String

def PRISON_SIGNALS : List PrisonSignalEntry := [
  { ptype := .CHOICE_ARCHITECTURE
    signals := ["option", "plan", "tier", "package", "menu", "choose from",
      "select", "pick", "preference", "customize"]
    mechanism := "Freedom is performed through selection from a pre-curated menu. The menu IS the cage."
    door := "Design your own menu. Ask: what option is missing, and why?" },
  { ptype := .OVERTON_WINDOW
    signals := ["mainstream", "fringe", "extreme", "moderate", "reasonable",
      "radical", "unthinkable", "acceptable", "politically feasible"]
    mechanism := "The range of 'acceptable' opinion is itself a structure of control. Moving the window is a power act."
    door := "Name the idea that cannot be spoken in this space. That is where the wall is." },
  { ptype := .DEBT_STRUCTURE
    signals := ["loan", "mortgage", "tuition", "credit", "payment plan",
      "interest", "debt", "obligation", "owe", "afford"]
    mechanism := "Debt restructures time itself. The indebted cannot afford to question because they cannot afford to lose."
    door := "Calculate the total lifetime interest paid. Follow where it goes. That is the architecture." },
  { ptype := .CREDENTIAL_GATE
    signals := ["degree", "certification", "accreditation", "qualified",
      "licensed", "authorized", "prerequisite", "requirements"]
    mechanism := "Credentials gatekeep knowledge that often came from the uncredentialed. The gate charges rent on the commons."
    door := "Find someone who knows this without the credential. They exist. Ask how they learned." },
  { ptype := .PLATFORM_LOCK
    signals := ["ecosystem", "integration", "compatible", "API", "platform",
      "migration cost", "switching cost", "vendor", "proprietary"]
    mechanism := "Digital dependency creates invisible walls. Your data, your network, your history — held hostage by design."
    door := "Export everything. If you can't, that IS the wall. Build on what you can leave." },
  { ptype := .TEMPORAL_TRAP
    signals := ["busy", "no time", "deadline", "urgent", "ASAP",
      "bandwidth", "overwhelmed", "sprint", "crunch", "hustle"]
    mechanism := "The trap that prevents seeing all other traps. If you have no time to think, you have no time to be free."
    door := "The most radical act may be stopping. Not forever. Just long enough to see." },
  { ptype := .IDENTITY_CAGE
    signals := ["people like us", "that's not who I am", "I could never",
      "that's not for people like me", "stay in your lane", "know your place"]
    mechanism := "Identity becomes a cage when it limits possibility. 'Who you are' becomes 'what you're allowed to want.'"
    door := "Try the thing that 'people like you' don't do. The cage is made of stories, not steel." },
  { ptype := .LEARNED_HELPLESSNESS
    signals := ["nothing changes", "what's the point", "they won't let us",
      "it's always been this way", "you can't fight", "too big to change"]
    mechanism := "The most elegant prison. The prisoner maintains their own walls by believing escape is impossible."
    door := "Find one person who escaped. One example breaks the spell. Then find another." }]

/-! ### Module 1 — frame detector -/

/-- `matched = [s for s in signals_data["signals"] if s in text_lower]`. -/
def matchedSignals (tl : List Char) (signals : List String) : List String :=
  signals.filter (fun s => occursIn s.data tl)

/-- `density = len(matched) / len(signals_data["signals"])`. -/
def densityOf (tl : List Char) (signals : List String) : ℚ :=
  ((matchedSignals tl signals).length : ℚ) / (signals.length : ℚ)

/-- Body of the `detect_frames` loop for one Signal-Table entry: `none` when
no signal matched (the `continue`), otherwise the `(density, frame)` pair
appended to `results`. -/
def frameOfEntry (tl : List Char) (e : FrameSignalEntry) : Option (ℚ × Frame) :=
  if (matchedSignals tl e.signals).isEmpty then none
  else some (densityOf tl e.signals,
    { name := frameTypeTitle e.ftype ++ " Frame"
      frame_type := e.ftype
      description := e.reveals
      unspoken_rules := (matchedSignals tl e.signals).map
        (fun m => "Signal detected: '" ++ m ++ "'")
      naturalized_assumptions := [e.reveals]
      forbidden_questions := [e.question]
      beneficiaries := []
      edges_of_thinkable := [e.antidote]
      strength := min (densityOf tl e.signals * 2) 1
      visibility := 1 - min (densityOf tl e.signals * 2) 1 })

/-- The `results` list of `detect_frames` before sorting, in Signal-Table
iteration order; `text_lower = text.lower() + " " + context.lower()` (on the
concatenation, lower-casing first the parts or the whole is the same map). -/
def framesScored (text ctx : String) : List (ℚ × Frame) :=
  FRAME_SIGNALS.filterMap (frameOfEntry (lowerList ((text ++ " " ++ ctx).data)))

/-- `detect_frames(text, context)`: scored findings sorted descending by
density (stable), then projected. -/
def detect_frames (text ctx : String) : List Frame :=
  (sortDesc Prod.fst (framesScored text ctx)).map Prod.snd

/-! ### Module 2 — mask identifier / influence graph -/

/-- Mutable state of `InfluenceGraph`: `_actors` is an insertion-ordered
dict keyed by `mask.actor` (Python 3.7+ semantics: overwriting keeps the
original position), `_edges` an append-only list.  The `threading.RLock`
has no observable effect on the sequential semantics modelled here. -/
structure GraphState where
  actors : List (String × Mask) := []
  edges : List InfluenceEdge := []
deriving DecidableEq, Inhabited

/-- Insertion-ordered dict upsert: last write wins, original position kept. -/
def upsertActor : List (String × Mask) → String → Mask → List (String × Mask)
  | [], k, m => [(k, m)]
  | (k', m') :: rest, k, m =>
    if k' = k then (k, m) :: rest else (k', m') :: upsertActor rest k m

/-- `InfluenceGraph.add_actor`. -/
def add_actor (g : GraphState) (m : Mask) : GraphState :=
  { g with actors := upsertActor g.actors m.actor m }

/-- `InfluenceGraph.add_edge`. -/
def add_edge (g : GraphState) (e : InfluenceEdge) : GraphState :=
  { g with edges := g.edges ++ [e] }

/-- Body of the `identify_masks` loop for one Signal-Table entry. -/
def maskOfEntry (tl : List Char) (e : MaskSignalEntry) : Option (ℚ × Mask) :=
  if (matchedSignals tl e.signals).isEmpty then none
  else some (densityOf tl e.signals,
    { actor := "[Actor performing " ++ MaskType.name e.mtype ++ "]"
      mask_type := e.mtype
      formal_role := String.intercalate ", " (matchedSignals tl e.signals)
      actual_function := e.behind_the_mask
      performance := "Signals: " ++ String.intercalate ", " (matchedSignals tl e.signals)
      hidden_hand := e.behind_the_mask
      dependencies := []
      vulnerabilities := e.slip_indicators })

/-- The `results` list of `identify_masks` before sorting (table order). -/
def masksScored (text : String) : List (ℚ × Mask) :=
  MASK_SIGNALS.filterMap (maskOfEntry (lowerList text.data))

/-- `InfluenceGraph.identify_masks(text)`: returns the updated graph state
and the result list.  In the source each constructed mask is upserted into
`self._actors` (via `self.add_actor`) during the scan, before the results
are sorted; the returned list itself never depends on the prior state. -/
def identify_masks (g : GraphState) (text : String) : GraphState × List Mask :=
  ((masksScored text).foldl (fun st p => add_actor st p.2) g,
   (sortDesc Prod.fst (masksScored text)).map Prod.snd)

/-- Sum of `edge.weight` over edges with `edge.source == actor`
(`outgoing` accumulator of `find_puppeteers`). -/
def outgoing (g : GraphState) (a : String) : ℚ :=
  ((g.edges.filter (fun e => e.source == a)).map InfluenceEdge.weight).sum

/-- Sum of `edge.weight` over edges with `edge.target == actor`. -/
def incoming (g : GraphState) (a : String) : ℚ :=
  ((g.edges.filter (fun e => e.target == a)).map InfluenceEdge.weight).sum

/-- Count of outgoing edges flagged not visible. -/
def hiddenCount (g : GraphState) (a : String) : ℕ :=
  (g.edges.filter (fun e => e.source == a && !e.visible)).length

/-- One entry of the `find_puppeteers` result (the dict literal). -/
structure PuppeteerEntry where
  actor : String
  outgoing_influence : ℚ
  incoming_influence : ℚ
  hidden_connections : ℕ
  puppet_score : ℚ
deriving DecidableEq, Inhabited

/-- Body of the `find_puppeteers` loop for one registered actor. -/
def entryOfActor (g : GraphState) (p : String × Mask) : Option PuppeteerEntry :=
  if incoming g p.1 < outgoing g p.1 ∧ 0 < hiddenCount g p.1 then
    some { actor := p.1
           outgoing_influence := round3 (outgoing g p.1)
           incoming_influence := round3 (incoming g p.1)
           hidden_connections := hiddenCount g p.1
           puppet_score := round3 (outgoing g p.1 / max (incoming g p.1) (1/100)
             * (1 + (hiddenCount g p.1 : ℚ))) }
  else none

/-- `InfluenceGraph.find_puppeteers()`. -/
def find_puppeteers (g : GraphState) : List PuppeteerEntry :=
  sortDesc PuppeteerEntry.puppet_score (g.actors.filterMap (entryOfActor g))

/-! ### Module 3 — spell analyzer -/

/-- Body of the `analyze_spells` loop for one Signal-Table entry.  Note that
the ranking key appended to `results` is the scaled `potency`, not the raw
density; the raw density is stored in `reach`. -/
def spellOfEntry (tl : List Char) (e : SpellSignalEntry) : Option (ℚ × Spell) :=
  if (matchedSignals tl e.signals).isEmpty then none
  else some (min (densityOf tl e.signals * (5/2)) 1,
    { name := spellTypeTitle e.stype
      spell_type := e.stype
      narrative := "Detected narrative signals: "
        ++ String.intercalate ", " (matchedSignals tl e.signals)
      emotional_payload := e.emotional_hook
      hidden_assumption := e.hidden_function
      erasure := "[Requires deeper analysis — what is NOT being said?]"
      cui_bono := "[Follow the benefit — who gains from this belief?]"
      counter_narrative := e.breaking_question
      potency := min (densityOf tl e.signals * (5/2)) 1
      reach := densityOf tl e.signals })

/-- The `results` list of `analyze_spells` before sorting (table order). -/
def spellsScored (text : String) : List (ℚ × Spell) :=
  SPELL_SIGNALS.filterMap (spellOfEntry (lowerList text.data))

/-- `analyze_spells(text)`: sorted descending by the potency key (stable). -/
def analyze_spells (text : String) : List Spell :=
  (sortDesc Prod.fst (spellsScored text)).map Prod.snd

/-! ### Module 4 — prison mapper -/

/-- Body of the `map_prisons` loop for one Signal-Table entry.  As with
spells, the ranking key is the scaled `elegance`, not the raw density. -/
def prisonOfEntry (tl : List Char) (e : PrisonSignalEntry) : Option (ℚ × Prison) :=
  if (matchedSignals tl e.signals).isEmpty then none
  else some (min (densityOf tl e.signals * 2) 1,
    { name := prisonTypeTitle e.ptype
      prison_type := e.ptype
      description := e.mechanism
      missing_choices := ["[What option would change everything if it appeared?]"]
      forbidden_paths := ["[What path is not even conceived as possible?]"]
      unimaginable_futures := ["[What future cannot be imagined from inside this prison?]"]
      invisible_walls := (matchedSignals tl e.signals).map (fun m => "Signal: '" ++ m ++ "'")
      exit_conditions := [e.door]
      elegance := min (densityOf tl e.signals * 2) 1 })

/-- The `results` list of `map_prisons` before sorting (table order). -/
def prisonsScored (text : String) : List (ℚ × Prison) :=
  PRISON_SIGNALS.filterMap (prisonOfEntry (lowerList text.data))

/-- `map_prisons(text)`: sorted descending by the elegance key (stable). -/
def map_prisons (text : String) : List Prison :=
  (sortDesc Prod.fst (prisonsScored text)).map Prod.snd

/-! ### Scoring — the entropy inside `compute_spell_potency`

`compute_spell_potency` builds `type_counts` over `s.spell_type.name` and
computes `-sum((c/total) * log2(c/total) for c in counts if c > 0)` with
`total = sum(type_counts.values())`.  The float `math.log2` is modelled over
`ℝ`; counts and totals are exact naturals. -/

/-- `type_counts[s.spell_type.name]` — keyed here directly by the (bijective)
enum member rather than its name string. -/
def spellTypeCount (spells : List Spell) (t : SpellType) : ℕ :=
  (spells.filter (fun s => s.spell_type == t)).length

/-- `total = sum(type_counts.values())` (absent types count 0). -/
def spellTypeTotal (spells : List Spell) : ℕ :=
  ∑ t : SpellType, spellTypeCount spells t

/-- The Shannon entropy (base 2) of the spell-type distribution computed by
`compute_spell_potency`. -/
noncomputable def spellEntropy (spells : List Spell) : ℝ :=
  -(∑ t ∈ Finset.univ.filter (fun t => 0 < spellTypeCount spells t),
      ((spellTypeCount spells t : ℝ) / (spellTypeTotal spells : ℝ))
        * Real.logb 2 ((spellTypeCount spells t : ℝ) / (spellTypeTotal spells : ℝ)))

/-! ### Module 5 — crumb trail persistence

`CrumbTrail.persist` writes `{"trail_id": ..., "crumbs": [c.to_dict()...],
"chains": dict(self._chains), "saved_at": ...}` as JSON;
`CrumbTrail.load` rebuilds a trail from that structure.  The snapshot is
modelled as the parsed structure (JSON round-trips these string / null
fields and the dict key order exactly); `saved_at` is wall clock and read
by nobody, hence omitted. -/

/-- Mutable state of a `CrumbTrail`: its id, the append-only `_crumbs`
list, and the `_chains` index `chain_id -> [crumb_ids]` (insertion-ordered
dict of lists). -/
structure CrumbTrailState where
  trail_id : String
  crumbs : List Crumb := []
  chains : List (String × List String) := []
deriving DecidableEq, Inhabited

/-- `Crumb.to_dict()`: the crumb type serialized as its member name. -/
structure CrumbDTO where
  crumb_id : String
  crumb_type_name : String
  content : String
  context : String
  visibility : String
  target_audience : String
  decay_time : Option String
  chain_id : Option String
  created_at : String
deriving DecidableEq, Inhabited

def Crumb.toDTO (c : Crumb) : CrumbDTO :=
  { crumb_id := c.crumb_id
    crumb_type_name := CrumbType.name c.crumb_type
    content := c.content
    context := c.context
    visibility := c.visibility
    target_audience := c.target_audience
    decay_time := c.decay_time
    chain_id := c.chain_id
    created_at := c.created_at }

/-- One iteration of the `load` loop: `CrumbType[c_data["crumb_type"]]`
raises on an unknown name (`none`); otherwise the crumb is rebuilt with
identical fields (`decay_time` / `chain_id` via `.get`, defaulting to
null). -/
def crumbOfDTO (d : CrumbDTO) : Option Crumb :=
  (crumbTypeOfName d.crumb_type_name).map (fun ct =>
    { crumb_id := d.crumb_id
      crumb_type := ct
      content := d.content
      context := d.context
      visibility := d.visibility
      target_audience := d.target_audience
      decay_time := d.decay_time
      chain_id := d.chain_id
      created_at := d.created_at })

/-- The `for c_data in data["crumbs"]` rebuild loop, first failure aborting
the whole load (the exception propagates). -/
def decodeCrumbs : List CrumbDTO → Option (List Crumb)
  | [] => some []
  | d :: rest =>
    match crumbOfDTO d, decodeCrumbs rest with
    | some c, some cs => some (c :: cs)
    | _, _ => none

/-- The persisted snapshot structure. -/
structure TrailSnapshot where
  trail_id : String
  crumbs : List CrumbDTO
  chains : List (String × List String)
deriving DecidableEq, Inhabited

/-- `CrumbTrail.persist`. -/
def CrumbTrail.persist (st : CrumbTrailState) : TrailSnapshot :=
  { trail_id := st.trail_id
    crumbs := st.crumbs.map Crumb.toDTO
    chains := st.chains }

/-- `CrumbTrail.load`. -/
def CrumbTrail.load (snap : TrailSnapshot) : Option CrumbTrailState :=
  (decodeCrumbs snap.crumbs).map (fun cs =>
    { trail_id := snap.trail_id
      crumbs := cs
      chains := snap.chains })

/-! ### Collective learning — `CollectiveInsight`

State, `contribute`, the distribution part of `get_collective_map`, and the
`_load` recovery path.  Frequency counters are Python dicts keyed by enum
member names with integer values; they are modelled as total functions
`String → ℤ` that are zero off the dict's support. -/

/-- The anonymized record `contribute` appends to `self._analyses`
(`contributed_at` omitted: wall clock). -/
structure AnonymizedAnalysis where
  frame_types : List String
  mask_types : List String
  spell_types : List String
  prison_types : List String
  awareness : ℚ
  seeing_depth : String
deriving DecidableEq, Inhabited

/-- Mutable state of `CollectiveInsight`. -/
structure CollectiveState where
  analyses : List AnonymizedAnalysis
  frame_frequencies : String → ℤ
  mask_frequencies : String → ℤ
  spell_frequencies : String → ℤ
  prison_frequencies : String → ℤ
  total_analyses : ℤ

/-- The freshly-initialized empty state set up by `__init__` before any
load: empty history, all counters zero, zero total. -/
def initialCollective : CollectiveState :=
  { analyses := []
    frame_frequencies := fun _ => 0
    mask_frequencies := fun _ => 0
    spell_frequencies := fun _ => 0
    prison_frequencies := fun _ => 0
    total_analyses := 0 }

/-- `for tag in tags: freq[tag] += 1` on a defaultdict(int). -/
def bumpAll (freq : String → ℤ) (tags : List String) : String → ℤ :=
  tags.foldl (fun f tag => fun k => if k = tag then f k + 1 else f k) freq

/-- `CollectiveInsight.contribute` (the state transition; the source also
persists when backed by storage and returns `get_collective_map()`). -/
def contribute (s : CollectiveState) (a : SystemAnalysis) : CollectiveState :=
  { analyses := s.analyses ++
      [{ frame_types := a.frames.map (fun f => FrameType.name f.frame_type)
         mask_types := a.masks.map (fun m => MaskType.name m.mask_type)
         spell_types := a.spells.map (fun sp => SpellType.name sp.spell_type)
         prison_types := a.prisons.map (fun p => PrisonType.name p.prison_type)
         awareness := awareness_score a
         seeing_depth := a.seeing_depth }]
    frame_frequencies := bumpAll s.frame_frequencies
      (a.frames.map (fun f => FrameType.name f.frame_type))
    mask_frequencies := bumpAll s.mask_frequencies
      (a.masks.map (fun m => MaskType.name m.mask_type))
    spell_frequencies := bumpAll s.spell_frequencies
      (a.spells.map (fun sp => SpellType.name sp.spell_type))
    prison_frequencies := bumpAll s.prison_frequencies
      (a.prisons.map (fun p => PrisonType.name p.prison_type))
    total_analyses := s.total_analyses + 1 }

/-- The frame-distribution entry of `get_collective_map()`:
`round(v / max(total, 1), 3)` per tag. -/
def frameDistribution (s : CollectiveState) (tag : String) : ℚ :=
  round3 ((s.frame_frequencies tag : ℚ) / ((max s.total_analyses 1 : ℤ) : ℚ))

/-- A value read from a parsed JSON object: absent, present and decodable,
or present but of a type that makes its conversion raise. -/
inductive JsonField (α : Type) where
  | absent
  | val (a : α)
  | bad
deriving DecidableEq

def JsonField.getD {α : Type} : JsonField α → α → α
  | .absent, d => d
  | .val a, _ => a
  | .bad, d => d

/-- The parsed collective snapshot as `_load` consumes it.
`total_analyses` and `analyses` are read with `.get(key, default)`, which
never raises (absent modelled by `none`); the four frequency dicts are
passed through `defaultdict(int, ...)`, which raises `TypeError` when the
stored value is not a mapping — that is the `JsonField.bad` case. -/
structure RawCollectiveSnapshot where
  total_analyses : Option ℤ
  frame_frequencies : JsonField (List (String × ℤ))
  mask_frequencies : JsonField (List (String × ℤ))
  spell_frequencies : JsonField (List (String × ℤ))
  prison_frequencies : JsonField (List (String × ℤ))
  analyses : Option (List AnonymizedAnalysis)

/-- Dict lookup with defaultdict(int) read semantics. -/
def freqFromPairs (l : List (String × ℤ)) : String → ℤ :=
  fun k => (((l.find? (fun p => p.1 == k)).map Prod.snd).getD 0)

/-- `CollectiveInsight._load` applied to a parsed snapshot: the six
assignments run in source order inside one `try`; the first failing
conversion raises, the `except Exception: pass` keeps whatever was already
assigned (it does NOT reset the earlier assignments). -/
def collectiveLoad (d : RawCollectiveSnapshot) (s0 : CollectiveState) : CollectiveState :=
  let s1 : CollectiveState := { s0 with total_analyses := d.total_analyses.getD 0 }
  match d.frame_frequencies with
  | JsonField.bad => s1
  | ff =>
    let s2 := { s1 with frame_frequencies := freqFromPairs (ff.getD []) }
    match d.mask_frequencies with
    | JsonField.bad => s2
    | mf =>
      let s3 := { s2 with mask_frequencies := freqFromPairs (mf.getD []) }
      match d.spell_frequencies with
      | JsonField.bad => s3
      | sf =>
        let s4 := { s3 with spell_frequencies := freqFromPairs (sf.getD []) }
        match d.prison_frequencies with
        | JsonField.bad => s4
        | pf =>
          let s5 := { s4 with prison_frequencies := freqFromPairs (pf.getD []) }
          { s5 with analyses := d.analyses.getD [] }

/-- `CollectiveInsight.__init__(storage_path)` restricted to its state
effect: start empty, then `_load()` if a backing snapshot exists.  `none`
models a missing file as well as one whose very parse fails
(`json.loads` or the `.get` on a non-dict raising before any assignment):
in both cases the state stays empty. -/
def collectiveInit (src : Option RawCollectiveSnapshot) : CollectiveState :=
  match src with
  | none => initialCollective
  | some d => collectiveLoad d initialCollective

/-! ### Helper lemmas -/

theorem sortDesc_perm {α : Type} (key : α → ℚ) (l : List α) :
    List.Perm (sortDesc key l) l :=
  List.perm_insertionSort _ l

theorem sortDesc_mem {α : Type} {key : α → ℚ} {l : List α} {x : α} :
    x ∈ sortDesc key l ↔ x ∈ l :=
  (sortDesc_perm key l).mem_iff

theorem sortDesc_pairwise {α : Type} (key : α → ℚ) (l : List α) :
    (sortDesc key l).Pairwise (fun a b => key b ≤ key a) := by
  letI : IsTotal α (fun a b => key b ≤ key a) := ⟨fun a b => le_total (key b) (key a)⟩
  letI : IsTrans α (fun a b => key b ≤ key a) := ⟨fun _ _ _ h1 h2 => le_trans h2 h1⟩
  exact List.sorted_insertionSort _ l

theorem frameOfEntry_eq_some {tl : List Char} {e : FrameSignalEntry} {p : ℚ × Frame}
    (h : frameOfEntry tl e = some p) :
    p.2.frame_type = e.ftype ∧ p.2.visibility = 1 - p.2.strength
    ∧ p.1 = densityOf tl e.signals ∧ p.2.strength = min (densityOf tl e.signals * 2) 1 := by
  unfold frameOfEntry at h
  split at h
  · exact absurd h (by simp)
  · cases h
    exact ⟨rfl, rfl, rfl, rfl⟩

theorem maskOfEntry_eq_some {tl : List Char} {e : MaskSignalEntry} {p : ℚ × Mask}
    (h : maskOfEntry tl e = some p) :
    p.2.mask_type = e.mtype ∧ p.1 = densityOf tl e.signals := by
  unfold maskOfEntry at h
  split at h
  · exact absurd h (by simp)
  · cases h
    exact ⟨rfl, rfl⟩

theorem spellOfEntry_eq_some {tl : List Char} {e : SpellSignalEntry} {p : ℚ × Spell}
    (h : spellOfEntry tl e = some p) :
    p.2.spell_type = e.stype ∧ p.1 = p.2.potency
    ∧ p.2.potency = min (p.2.reach * (5/2)) 1 ∧ p.2.reach = densityOf tl e.signals := by
  unfold spellOfEntry at h
  split at h
  · exact absurd h (by simp)
  · cases h
    exact ⟨rfl, rfl, rfl, rfl⟩

theorem prisonOfEntry_eq_some {tl : List Char} {e : PrisonSignalEntry} {p : ℚ × Prison}
    (h : prisonOfEntry tl e = some p) :
    p.2.prison_type = e.ptype ∧ p.1 = p.2.elegance := by
  unfold prisonOfEntry at h
  split at h
  · exact absurd h (by simp)
  · cases h
    exact ⟨rfl, rfl⟩

theorem nodup_map_filterMap {α β γ : Type} (f : α → Option β) (tag : β → γ) (key : α → γ)
    (h : ∀ a b, f a = some b → tag b = key a) :
    ∀ l : List α, (l.map key).Nodup → ((l.filterMap f).map tag).Nodup := by
  intro l
  induction l with
  | nil => intro _; simp
  | cons a t ih =>
    intro hn
    rw [List.map_cons, List.nodup_cons] at hn
    rw [List.filterMap_cons]
    cases hfa : f a with
    | none => exact ih hn.2
    | some b =>
      rw [List.map_cons, List.nodup_cons]
      refine ⟨fun hmem => ?_, ih hn.2⟩
      rcases List.mem_map.mp hmem with ⟨b', hb', htag⟩
      rcases List.mem_filterMap.mp hb' with ⟨a', ha', hfa'⟩
      have e1 : key a = key a' := by rw [← h a b hfa, ← htag, h a' b' hfa']
      exact hn.1 (e1 ▸ List.mem_map_of_mem key ha')

/-! ### Shared concrete inputs -/

/-- Text containing the single ORIGIN_MYTH signal "founded" and no other
spell signal. -/
def txtFounded : String := "founded"

/-- Text whose pieces contain no frame signal, but whose junction does. -/
def txtCommon : String := "common"

/-- Second half of the junction example. -/
def txtSense : String := "sense"

/-! ## C1 -/

/-- C1 (amended, corrected part for spells): every `Frame` returned by
`detect_frames` satisfies `visibility = 1 - strength`; but every `Spell`
returned by `analyze_spells` stores the RAW DENSITY in `reach` and
`potency = min(2.5 * density, 1)`, i.e. `potency = min(2.5 * reach, 1)` —
not `reach = 1 - potency` as the claim states. -/
theorem frame_visibility_spell_scores (text ctx t : String) :
    (∀ f ∈ detect_frames text ctx, f.visibility = 1 - f.strength)
  ∧ (∀ s ∈ analyze_spells t, s.potency = min (s.reach * (5/2)) 1) := by
  constructor
  · intro f hf
    simp only [detect_frames] at hf
    rcases List.mem_map.mp hf with ⟨p, hp, rfl⟩
    simp only [framesScored] at hp
    rcases List.mem_filterMap.mp (sortDesc_mem.mp hp) with ⟨e, _, hfe⟩
    exact (frameOfEntry_eq_some hfe).2.1
  · intro s hs
    simp only [analyze_spells] at hs
    rcases List.mem_map.mp hs with ⟨p, hp, rfl⟩
    simp only [spellsScored] at hp
    rcases List.mem_filterMap.mp (sortDesc_mem.mp hp) with ⟨e, _, hse⟩
    exact (spellOfEntry_eq_some hse).2.2.1

/-- The first frame found on the junction example, used as concrete input. -/
def c1Frame : Frame := (detect_frames txtCommon txtSense).headD {}

/-- The single spell found on `txtFounded`, used as concrete input. -/
def c1Spell : Spell := (analyze_spells txtFounded).headD {}

/-- C1 witness: the amended statement applied to concrete findings. -/
theorem frame_visibility_spell_scores_witness :
    c1Frame ∈ detect_frames txtCommon txtSense
  ∧ c1Frame.visibility = 1 - c1Frame.strength
  ∧ c1Spell ∈ analyze_spells txtFounded
  ∧ c1Spell.potency = min (c1Spell.reach * (5/2)) 1 :=
  ⟨by decide,
   (frame_visibility_spell_scores txtCommon txtSense txtFounded).1 c1Frame (by decide),
   by decide,
   (frame_visibility_spell_scores txtCommon txtSense txtFounded).2 c1Spell (by decide)⟩

/-- C1 counterexample: on the text "founded", `analyze_spells` returns one
Spell with `potency = 1/4` and `reach = 1/10` (density 1 of 10 signals), so
`reach ≠ 1 - potency`: the claimed inverse relationship fails for spells. -/
theorem spell_reach_not_inverse :
    ¬ (∀ s ∈ analyze_spells txtFounded, s.reach = 1 - s.potency) := by decide

/-! ## C2 -/

/-- C2 (amended): each detector's result is the stable descending sort of
its scored findings by the detector's OWN ranking key — the raw density for
`detect_frames` and `identify_masks` (the key `Prod.fst` of `framesScored` /
`masksScored` is the density), but the scaled capped `potency` for
`analyze_spells` and `elegance` for `map_prisons`; ties keep Signal-Table
order.  For spells and prisons this disagrees with density order once the
cap saturates. -/
theorem detector_sorted_by_key (text ctx t : String) (g : GraphState) :
    detect_frames text ctx = (sortDesc Prod.fst (framesScored text ctx)).map Prod.snd
  ∧ (sortDesc Prod.fst (framesScored text ctx)).Pairwise (fun p q => q.1 ≤ p.1)
  ∧ (identify_masks g t).2 = (sortDesc Prod.fst (masksScored t)).map Prod.snd
  ∧ (sortDesc Prod.fst (masksScored t)).Pairwise (fun p q => q.1 ≤ p.1)
  ∧ (analyze_spells t).Pairwise (fun a b => b.potency ≤ a.potency)
  ∧ (map_prisons t).Pairwise (fun a b => b.elegance ≤ a.elegance) := by
  refine ⟨rfl, sortDesc_pairwise _ _, rfl, sortDesc_pairwise _ _, ?_, ?_⟩
  · rw [analyze_spells, List.pairwise_map]
    refine List.Pairwise.imp_of_mem ?_ (sortDesc_pairwise Prod.fst (spellsScored t))
    intro p q hp hq hle
    rcases List.mem_filterMap.mp (sortDesc_mem.mp hp) with ⟨e, _, hpe⟩
    rcases List.mem_filterMap.mp (sortDesc_mem.mp hq) with ⟨e', _, hqe⟩
    rw [← (spellOfEntry_eq_some hpe).2.1, ← (spellOfEntry_eq_some hqe).2.1]
    exact hle
  · rw [map_prisons, List.pairwise_map]
    refine List.Pairwise.imp_of_mem ?_ (sortDesc_pairwise Prod.fst (prisonsScored t))
    intro p q hp hq hle
    rcases List.mem_filterMap.mp (sortDesc_mem.mp hp) with ⟨e, _, hpe⟩
    rcases List.mem_filterMap.mp (sortDesc_mem.mp hq) with ⟨e', _, hqe⟩
    rw [← (prisonOfEntry_eq_some hpe).2, ← (prisonOfEntry_eq_some hqe).2]
    exact hle

/-- Text on which two spell types both reach the potency cap with different
densities, plus the incidental "or" (inside "origin") for BINARY_SPELL. -/
def txtC2 : String := "founded began origin genesis better improving growing advancing developing"

/-- C2 counterexample: on `txtC2` the spell result's densities (stored in
`reach`) come out as [2/5, 5/9, 1/9] — the first two types both have
potency capped at 1.0, the stable sort keeps table order, and 2/5 < 5/9, so
the list is NOT sorted descending by density. -/
theorem spells_not_density_sorted :
    (analyze_spells txtC2).map Spell.reach = [2/5, 5/9, 1/9]
  ∧ ¬ ((analyze_spells txtC2).map Spell.reach).Pairwise (fun a b => b ≤ a) := by
  constructor <;> decide

/-! ## C3 -/

theorem crumbType_name_roundtrip (t : CrumbType) :
    crumbTypeOfName (CrumbType.name t) = some t := by
  cases t <;> decide

theorem decodeCrumbs_map_toDTO : ∀ l : List Crumb, decodeCrumbs (l.map Crumb.toDTO) = some l := by
  intro l
  induction l with
  | nil => rfl
  | cons c t ih =>
    have hc : crumbOfDTO c.toDTO = some c := by
      unfold crumbOfDTO Crumb.toDTO
      rw [crumbType_name_roundtrip]
      rfl
    rw [List.map_cons]
    unfold decodeCrumbs
    rw [ih, hc]

/-- C3: loading the snapshot written by `persist` yields a store with the
same trail id, the same crumbs (every field of every record identical, in
order) and the identical chain index — the round-trip is the identity. -/
theorem crumbtrail_persist_load_roundtrip (st : CrumbTrailState) :
    CrumbTrail.load (CrumbTrail.persist st) = some st := by
  unfold CrumbTrail.load CrumbTrail.persist
  rw [decodeCrumbs_map_toDTO]
  rfl

/-! ## C4 -/

theorem bumpAll_single (f : String → ℤ) (n : String) : bumpAll f [n] n = f n + 1 := by
  show (if n = n then f n + 1 else f n) = f n + 1
  rw [if_pos rfl]

theorem contribute_foldl_frame (X : FrameType) :
    ∀ (l : List SystemAnalysis) (s : CollectiveState),
      (∀ a ∈ l, a.frames.map Frame.frame_type = [X]) →
      (l.foldl contribute s).frame_frequencies (FrameType.name X)
          = s.frame_frequencies (FrameType.name X) + l.length
        ∧ (l.foldl contribute s).total_analyses = s.total_analyses + l.length := by
  intro l
  induction l with
  | nil => intro s _; simp
  | cons a t ih =>
    intro s hX
    have hfa : a.frames.map Frame.frame_type = [X] := hX a (List.mem_cons_self a t)
    have hmap : a.frames.map (fun f => FrameType.name f.frame_type) = [FrameType.name X] := by
      have h := congrArg (List.map FrameType.name) hfa
      rw [List.map_map] at h
      simpa [Function.comp] using h
    have hstep : (contribute s a).frame_frequencies (FrameType.name X)
        = s.frame_frequencies (FrameType.name X) + 1 := by
      show bumpAll s.frame_frequencies (a.frames.map (fun f => FrameType.name f.frame_type))
          (FrameType.name X) = _
      rw [hmap, bumpAll_single]
    obtain ⟨h1, h2⟩ := ih (contribute s a) (fun b hb => hX b (List.mem_cons_of_mem a hb))
    rw [List.foldl_cons]
    constructor
    · rw [h1, hstep]
      push_cast [List.length_cons]
      ring
    · rw [h2]
      show s.total_analyses + 1 + (t.length : ℤ) = _
      push_cast [List.length_cons]
      ring

/-- C4: contributing N analyses, each with exactly one frame of type X, to
a freshly constructed aggregator yields frame counter N for X, total N, and
a reported frame-distribution proportion of 1.0 for X. -/
theorem collective_contribute_counts (N : ℕ) (X : FrameType) (l : List SystemAnalysis)
    (hN : 1 ≤ N) (hlen : l.length = N)
    (hX : ∀ a ∈ l, a.frames.map Frame.frame_type = [X]) :
    (l.foldl contribute initialCollective).frame_frequencies (FrameType.name X) = (N : ℤ)
  ∧ (l.foldl contribute initialCollective).total_analyses = (N : ℤ)
  ∧ frameDistribution (l.foldl contribute initialCollective) (FrameType.name X) = 1 := by
  obtain ⟨h1, h2⟩ := contribute_foldl_frame X l initialCollective hX
  rw [hlen] at h1 h2
  have hf : (l.foldl contribute initialCollective).frame_frequencies (FrameType.name X)
      = (N : ℤ) := by
    rw [h1]; show (0 : ℤ) + N = N; ring
  have ht : (l.foldl contribute initialCollective).total_analyses = (N : ℤ) := by
    rw [h2]; show (0 : ℤ) + N = N; ring
  refine ⟨hf, ht, ?_⟩
  unfold frameDistribution
  rw [hf, ht]
  have hmax : max (N : ℤ) 1 = (N : ℤ) := max_eq_left (by exact_mod_cast hN)
  rw [hmax]
  have hN0 : (((N : ℤ) : ℚ)) ≠ 0 := by
    have : 0 < N := hN
    push_cast
    exact_mod_cast this.ne'
  rw [div_self hN0]
  decide

/-- Analysis with a single NORMATIVE frame, used as concrete C4 input. -/
def c4Analysis : SystemAnalysis := { frames := [{ frame_type := FrameType.NORMATIVE }] }

/-- C4 witness: one contribution of a single-NORMATIVE-frame analysis. -/
theorem collective_contribute_counts_witness :
    (1 ≤ 1 ∧ ([c4Analysis] : List SystemAnalysis).length = 1
      ∧ ∀ a ∈ ([c4Analysis] : List SystemAnalysis),
          a.frames.map Frame.frame_type = [FrameType.NORMATIVE])
  ∧ ([c4Analysis].foldl contribute initialCollective).frame_frequencies
      (FrameType.name FrameType.NORMATIVE) = ((1 : ℕ) : ℤ)
  ∧ ([c4Analysis].foldl contribute initialCollective).total_analyses = ((1 : ℕ) : ℤ)
  ∧ frameDistribution ([c4Analysis].foldl contribute initialCollective)
      (FrameType.name FrameType.NORMATIVE) = 1 :=
  ⟨⟨by decide, by decide, by decide⟩,
   (collective_contribute_counts 1 FrameType.NORMATIVE [c4Analysis]
     (by decide) (by decide) (by decide)).1,
   (collective_contribute_counts 1 FrameType.NORMATIVE [c4Analysis]
     (by decide) (by decide) (by decide)).2.1,
   (collective_contribute_counts 1 FrameType.NORMATIVE [c4Analysis]
     (by decide) (by decide) (by decide)).2.2⟩

/-! ## C5 -/

theorem entryOfActor_eq_some {g : GraphState} {p : String × Mask} {e : PuppeteerEntry}
    (h : entryOfActor g p = some e) :
    e.actor = p.1 ∧ incoming g p.1 < outgoing g p.1 ∧ 0 < hiddenCount g p.1
    ∧ e.outgoing_influence = round3 (outgoing g p.1)
    ∧ e.incoming_influence = round3 (incoming g p.1)
    ∧ e.hidden_connections = hiddenCount g p.1
    ∧ e.puppet_score = round3 (outgoing g p.1 / max (incoming g p.1) (1/100)
        * (1 + (hiddenCount g p.1 : ℚ))) := by
  unfold entryOfActor at h
  split at h
  · cases h
    rename_i hcond
    exact ⟨rfl, hcond.1, hcond.2, rfl, rfl, rfl, rfl⟩
  · exact absurd h (by simp)

theorem entryOfActor_pos {g : GraphState} (p : String × Mask)
    (h1 : incoming g p.1 < outgoing g p.1) (h2 : 0 < hiddenCount g p.1) :
    ∃ e, entryOfActor g p = some e ∧ e.actor = p.1 := by
  have h : entryOfActor g p
      = some { actor := p.1
               outgoing_influence := round3 (outgoing g p.1)
               incoming_influence := round3 (incoming g p.1)
               hidden_connections := hiddenCount g p.1
               puppet_score := round3 (outgoing g p.1 / max (incoming g p.1) (1/100)
                 * (1 + (hiddenCount g p.1 : ℚ))) } := by
    unfold entryOfActor
    rw [if_pos ⟨h1, h2⟩]
  exact ⟨_, h, rfl⟩

/-- C5: `find_puppeteers` returns exactly the registered actors whose
summed outgoing weight strictly exceeds their summed incoming weight and
who have at least one invisible outgoing edge; each entry carries the
rounded score `out / max(in, 0.01) * (1 + hiddenCount)`, the list is sorted
descending by that score, and no returned actor has `out <= in` or
`hiddenCount = 0`. -/
theorem find_puppeteers_spec (g : GraphState) :
    (find_puppeteers g).Pairwise (fun x y => y.puppet_score ≤ x.puppet_score)
  ∧ (∀ e ∈ find_puppeteers g,
        incoming g e.actor < outgoing g e.actor
      ∧ 0 < hiddenCount g e.actor
      ∧ e.outgoing_influence = round3 (outgoing g e.actor)
      ∧ e.incoming_influence = round3 (incoming g e.actor)
      ∧ e.hidden_connections = hiddenCount g e.actor
      ∧ e.puppet_score = round3 (outgoing g e.actor / max (incoming g e.actor) (1/100)
          * (1 + (hiddenCount g e.actor : ℚ))))
  ∧ (∀ a : String, (∃ e ∈ find_puppeteers g, e.actor = a)
      ↔ a ∈ g.actors.map Prod.fst ∧ incoming g a < outgoing g a ∧ 0 < hiddenCount g a) := by
  refine ⟨sortDesc_pairwise _ _, ?_, ?_⟩
  · intro e he
    rcases List.mem_filterMap.mp (sortDesc_mem.mp he) with ⟨p, _, hpe⟩
    obtain ⟨ha, h1, h2, h3, h4, h5, h6⟩ := entryOfActor_eq_some hpe
    rw [ha]
    exact ⟨h1, h2, h3, h4, h5, h6⟩
  · intro a
    constructor
    · rintro ⟨e, he, rfl⟩
      rcases List.mem_filterMap.mp (sortDesc_mem.mp he) with ⟨p, hp, hpe⟩
      obtain ⟨ha, h1, h2, -⟩ := entryOfActor_eq_some hpe
      rw [ha]
      exact ⟨List.mem_map_of_mem Prod.fst hp, h1, h2⟩
    · rintro ⟨ha, h1, h2⟩
      rcases List.mem_map.mp ha with ⟨p, hp, hpa⟩
      subst hpa
      obtain ⟨e, he, hea⟩ := entryOfActor_pos p h1 h2
      exact ⟨e, sortDesc_mem.mpr (List.mem_filterMap.mpr ⟨p, hp, he⟩), hea⟩

/-- Names used in the C5 example graph. -/
def actorA : String := "A"

/-- Second registered actor of the C5 example graph. -/
def actorC : String := "C"

/-- The §8 scenario graph: edge A→B weight 0.9 invisible, C→B weight 0.1
visible, actors A and C registered. -/
def gEx : GraphState :=
  { actors := [("A", ({} : Mask)), ("C", ({} : Mask))]
    edges := [{ source := "A", target := "B", relation := "controls",
                weight := 9/10, visible := false },
              { source := "C", target := "B", relation := "controls",
                weight := 1/10, visible := true }] }

/-- C5 witness: on the example graph the spec theorem puts A in the result
(out 0.9 > in 0, one hidden edge) and keeps C out (no hidden edge). -/
theorem find_puppeteers_spec_witness :
    (∃ e ∈ find_puppeteers gEx, e.actor = actorA)
  ∧ ¬ (∃ e ∈ find_puppeteers gEx, e.actor = actorC) := by
  have h := (find_puppeteers_spec gEx).2.2
  constructor
  · exact (h actorA).mpr ⟨by decide, by decide, by decide⟩
  · intro hc
    have h2 := ((h actorC).mp hc).2.2
    exact absurd h2 (by decide)

/-! ## C6 -/

theorem spellTypeCount_all {spells : List Spell} {t0 : SpellType}
    (hall : ∀ s ∈ spells, s.spell_type = t0) (t : SpellType) :
    spellTypeCount spells t = if t = t0 then spells.length else 0 := by
  unfold spellTypeCount
  split
  · rename_i h
    subst h
    rw [List.filter_eq_self.mpr]
    intro s hs
    exact beq_iff_eq.mpr (hall s hs)
  · rename_i h
    rw [List.filter_eq_nil_iff.mpr, List.length_nil]
    intro s hs hbeq
    have h1 : s.spell_type = t := beq_iff_eq.mp hbeq
    exact h (h1 ▸ hall s hs)

theorem spellEntropy_single {spells : List Spell} {t0 : SpellType}
    (hne : spells ≠ []) (hall : ∀ s ∈ spells, s.spell_type = t0) :
    spellEntropy spells = 0 := by
  have hc := spellTypeCount_all hall
  have hlen : spells.length ≠ 0 := fun h => hne (List.length_eq_zero.mp h)
  have hS : (Finset.univ.filter fun t => 0 < spellTypeCount spells t) = {t0} := by
    ext t
    simp only [Finset.mem_filter, Finset.mem_univ, true_and, Finset.mem_singleton, hc t]
    constructor
    · intro hpos
      by_contra hne'
      rw [if_neg hne'] at hpos
      exact absurd hpos (lt_irrefl 0)
    · intro h
      subst h
      rw [if_pos rfl]
      exact Nat.pos_of_ne_zero hlen
  have htot : spellTypeTotal spells = spells.length := by
    unfold spellTypeTotal
    rw [Finset.sum_congr rfl (fun t _ => hc t), Finset.sum_ite_eq' Finset.univ t0
      (fun _ => spells.length), if_pos (Finset.mem_univ t0)]
  unfold spellEntropy
  rw [hS, Finset.sum_singleton, hc t0, if_pos rfl, htot,
    div_self (by exact_mod_cast hlen), Real.logb_one, mul_zero, neg_zero]

theorem spellEntropy_equal_freq {spells : List Spell} {k N : ℕ}
    (hne : spells ≠ []) (hk : 1 ≤ k)
    (hcount : ∀ t, spellTypeCount spells t = 0 ∨ spellTypeCount spells t = k)
    (hN : N = (Finset.univ.filter fun t => 0 < spellTypeCount spells t).card) :
    spellEntropy spells = Real.logb 2 (N : ℝ) := by
  have hSk : ∀ t ∈ (Finset.univ.filter fun t => 0 < spellTypeCount spells t),
      spellTypeCount spells t = k := by
    intro t ht
    rcases hcount t with h0 | hk'
    · rw [Finset.mem_filter] at ht
      rw [h0] at ht
      exact absurd ht.2 (lt_irrefl 0)
    · exact hk'
  have hNpos : 0 < N := by
    rcases spells with _ | ⟨s0, rest⟩
    · exact absurd rfl hne
    · have hmem : s0 ∈ (s0 :: rest).filter (fun s => s.spell_type == s0.spell_type) :=
        List.mem_filter.mpr ⟨List.mem_cons_self s0 rest, beq_iff_eq.mpr rfl⟩
      have hcpos : 0 < spellTypeCount (s0 :: rest) s0.spell_type :=
        List.length_pos_of_mem hmem
      have : s0.spell_type ∈ (Finset.univ.filter
          fun t => 0 < spellTypeCount (s0 :: rest) t) :=
        Finset.mem_filter.mpr ⟨Finset.mem_univ _, hcpos⟩
      rw [hN]
      exact Finset.card_pos.mpr ⟨s0.spell_type, this⟩
  have hkR : ((k : ℝ)) ≠ 0 := by exact_mod_cast (Nat.lt_of_lt_of_le Nat.zero_lt_one hk).ne'
  have hNR : ((N : ℝ)) ≠ 0 := by exact_mod_cast hNpos.ne'
  have htot : spellTypeTotal spells = N * k := by
    unfold spellTypeTotal
    rw [← Finset.sum_filter_of_ne (f := fun t => spellTypeCount spells t)
        (fun t _ h0 => Nat.pos_of_ne_zero h0),
      Finset.sum_congr rfl hSk, Finset.sum_const, smul_eq_mul, hN]
  have hterm : ∀ t ∈ (Finset.univ.filter fun t => 0 < spellTypeCount spells t),
      ((spellTypeCount spells t : ℝ) / (spellTypeTotal spells : ℝ))
          * Real.logb 2 ((spellTypeCount spells t : ℝ) / (spellTypeTotal spells : ℝ))
        = (1 / (N : ℝ)) * Real.logb 2 (1 / (N : ℝ)) := by
    intro t ht
    rw [hSk t ht, htot]
    have hratio : ((k : ℝ)) / ((N * k : ℕ) : ℝ) = 1 / (N : ℝ) := by
      push_cast
      field_simp
      ring
    rw [hratio]
  unfold spellEntropy
  rw [Finset.sum_congr rfl hterm, Finset.sum_const, ← hN, nsmul_eq_mul,
    one_div (N : ℝ), Real.logb_inv]
  field_simp

/-- C6: the entropy computed by `compute_spell_potency` is exactly 0 when a
single spell subtype is present, and equals `log2 N` — in particular within
tolerance 1e-9 — when N distinct subtypes occur with equal frequency. -/
theorem spell_entropy_spec :
    (∀ (spells : List Spell) (t0 : SpellType), spells ≠ [] →
        (∀ s ∈ spells, s.spell_type = t0) → spellEntropy spells = 0)
  ∧ (∀ (spells : List Spell) (k N : ℕ), spells ≠ [] → 1 ≤ k →
        (∀ t, spellTypeCount spells t = 0 ∨ spellTypeCount spells t = k) →
        N = (Finset.univ.filter fun t => 0 < spellTypeCount spells t).card →
        |spellEntropy spells - Real.logb 2 (N : ℝ)| ≤ 1 / 1000000000) := by
  refine ⟨fun spells t0 hne hall => spellEntropy_single hne hall, ?_⟩
  intro spells k N hne hk hcount hN
  rw [spellEntropy_equal_freq hne hk hcount hN, sub_self, abs_zero]
  norm_num

/-- Spell of type ORIGIN_MYTH (the default), C6 concrete input. -/
def c6SpellA : Spell := {}

/-- Spell of type PROGRESS_NARRATIVE, C6 concrete input. -/
def c6SpellB : Spell := { spell_type := SpellType.PROGRESS_NARRATIVE }

/-- C6 witness: a one-subtype list has entropy exactly 0, and a list of two
equally frequent subtypes has entropy within 1e-9 of log2 2. -/
theorem spell_entropy_spec_witness :
    (([c6SpellA] : List Spell) ≠ []
      ∧ (∀ s ∈ ([c6SpellA] : List Spell), s.spell_type = SpellType.ORIGIN_MYTH)
      ∧ spellEntropy [c6SpellA] = 0)
  ∧ (([c6SpellA, c6SpellB] : List Spell) ≠ []
      ∧ (∀ t, spellTypeCount [c6SpellA, c6SpellB] t = 0
            ∨ spellTypeCount [c6SpellA, c6SpellB] t = 1)
      ∧ 2 = (Finset.univ.filter fun t => 0 < spellTypeCount [c6SpellA, c6SpellB] t).card
      ∧ |spellEntropy [c6SpellA, c6SpellB] - Real.logb 2 ((2 : ℕ) : ℝ)| ≤ 1 / 1000000000) :=
  ⟨⟨by decide, by decide,
    spell_entropy_spec.1 [c6SpellA] SpellType.ORIGIN_MYTH (by decide) (by decide)⟩,
   ⟨by decide, by decide, by decide,
    spell_entropy_spec.2 [c6SpellA, c6SpellB] 1 2 (by decide) (by decide)
      (by decide) (by decide)⟩⟩

/-! ## C7 -/

/-- A parsable but malformed snapshot: a valid integer `total_analyses` of 5
followed by a `frame_frequencies` value that is not a mapping — concretely
the JSON file `{"total_analyses": 5, "frame_frequencies": [1, 2]}`, on which
`defaultdict(int, [1, 2])` raises `TypeError` inside `_load`'s `try`. -/
def badCollectiveSnap : RawCollectiveSnapshot :=
  { total_analyses := some 5
    frame_frequencies := JsonField.bad
    mask_frequencies := JsonField.absent
    spell_frequencies := JsonField.absent
    prison_frequencies := JsonField.absent
    analyses := none }

/-- C7 (code-bug evidence): a missing or unparsable snapshot does leave the
aggregator empty and nothing ever propagates (the embedded load is a total
function), but on the malformed-yet-parsable snapshot above the
`except ... pass` keeps the already-executed assignment: the constructed
aggregator reports `total_analyses = 5` with all counters zero — NOT the
empty initial state the claim (and the source's own "Start fresh if
corrupted" comment) requires. -/
theorem collective_load_partial_state :
    collectiveInit none = initialCollective
  ∧ (collectiveInit (some badCollectiveSnap)).total_analyses = 5
  ∧ (∀ tag, (collectiveInit (some badCollectiveSnap)).frame_frequencies tag = 0)
  ∧ (collectiveInit (some badCollectiveSnap)).analyses = []
  ∧ initialCollective.total_analyses = 0 :=
  ⟨rfl, rfl, fun _ => rfl, rfl, rfl⟩

/-! ## C8 -/

theorem foldl_add_actor_edges (l : List (ℚ × Mask)) :
    ∀ g : GraphState, (l.foldl (fun st p => add_actor st p.2) g).edges = g.edges := by
  induction l with
  | nil => intro g; rfl
  | cons p t ih =>
    intro g
    rw [List.foldl_cons, ih]
    rfl

theorem foldl_add_actor_actors (l : List (ℚ × Mask)) :
    ∀ g : GraphState, (l.foldl (fun st p => add_actor st p.2) g).actors
      = l.foldl (fun acc p => upsertActor acc p.2.actor p.2) g.actors := by
  induction l with
  | nil => intro g; rfl
  | cons p t ih =>
    intro g
    rw [List.foldl_cons, List.foldl_cons, ih]
    rfl

/-- C8 (amended): `detect_frames`, `analyze_spells` and `map_prisons` are
pure functions of text and context; `identify_masks` also computes its
returned list purely from the text and Signal Table — independent of the
graph state — and leaves the edge list untouched, but it upserts every
returned mask into the graph's actor map, so a detector call CAN change
stored state. -/
theorem detector_state_effects (g g' : GraphState) (text : String) :
    (identify_masks g text).2 = (identify_masks g' text).2
  ∧ (identify_masks g text).1.edges = g.edges
  ∧ (identify_masks g text).1.actors
      = (masksScored text).foldl (fun acc p => upsertActor acc p.2.actor p.2) g.actors :=
  ⟨rfl, foldl_add_actor_edges (masksScored text) g, foldl_add_actor_actors (masksScored text) g⟩

/-- Text matching exactly one AUTHORITY mask signal. -/
def txtLeadership : String := "leadership"

/-- The empty influence graph. -/
def emptyGraph : GraphState := { actors := [], edges := [] }

/-- C8 counterexample: calling the mask detector on an empty graph changes
the stored state — the scan upserts the actor slot
"[Actor performing AUTHORITY]" — so a detector call is not free of side
effects on stored state. -/
theorem identify_masks_mutates_graph :
    (identify_masks emptyGraph txtLeadership).1 ≠ emptyGraph := by decide

/-! ## C9 -/

theorem nodup_sorted_tags {α β γ : Type} (key : α → γ) (F : α → Option (ℚ × β)) (tag : β → γ)
    (h : ∀ a p, F a = some p → tag p.2 = key a) (table : List α)
    (hn : (table.map key).Nodup) :
    (((sortDesc Prod.fst (table.filterMap F)).map Prod.snd).map tag).Nodup := by
  rw [List.map_map]
  have h1 : ((table.filterMap F).map (tag ∘ Prod.snd)).Nodup :=
    nodup_map_filterMap F (tag ∘ Prod.snd) key (fun a p hp => h a p hp) table hn
  exact (((sortDesc_perm Prod.fst (table.filterMap F)).map (tag ∘ Prod.snd)).nodup_iff).mpr h1

theorem length_sorted_filterMap {α β : Type} (F : α → Option (ℚ × β)) (table : List α) :
    ((sortDesc Prod.fst (table.filterMap F)).map Prod.snd).length ≤ table.length := by
  rw [List.length_map, (sortDesc_perm Prod.fst (table.filterMap F)).length_eq]
  exact List.length_filterMap_le F table

/-- C9: every detector returns at most one finding per subtype: the result
never exceeds the 8 subtypes of its Signal Table and the subtype tags of
the returned findings are pairwise distinct. -/
theorem detector_results_nodup (text ctx t : String) (g : GraphState) :
    ((detect_frames text ctx).map Frame.frame_type).Nodup
  ∧ (detect_frames text ctx).length ≤ 8
  ∧ (((identify_masks g t).2).map Mask.mask_type).Nodup
  ∧ ((identify_masks g t).2).length ≤ 8
  ∧ ((analyze_spells t).map Spell.spell_type).Nodup
  ∧ (analyze_spells t).length ≤ 8
  ∧ ((map_prisons t).map Prison.prison_type).Nodup
  ∧ (map_prisons t).length ≤ 8 := by
  refine ⟨?_, ?_, ?_, ?_, ?_, ?_, ?_, ?_⟩
  · exact nodup_sorted_tags FrameSignalEntry.ftype _ Frame.frame_type
      (fun e p hp => (frameOfEntry_eq_some hp).1) FRAME_SIGNALS (by decide)
  · exact (length_sorted_filterMap _ FRAME_SIGNALS).trans (by decide)
  · exact nodup_sorted_tags MaskSignalEntry.mtype _ Mask.mask_type
      (fun e p hp => (maskOfEntry_eq_some hp).1) MASK_SIGNALS (by decide)
  · exact (length_sorted_filterMap _ MASK_SIGNALS).trans (by decide)
  · exact nodup_sorted_tags SpellSignalEntry.stype _ Spell.spell_type
      (fun e p hp => (spellOfEntry_eq_some hp).1) SPELL_SIGNALS (by decide)
  · exact (length_sorted_filterMap _ SPELL_SIGNALS).trans (by decide)
  · exact nodup_sorted_tags PrisonSignalEntry.ptype _ Prison.prison_type
      (fun e p hp => (prisonOfEntry_eq_some hp).1) PRISON_SIGNALS (by decide)
  · exact (length_sorted_filterMap _ PRISON_SIGNALS).trans (by decide)

/-! ## C10 -/

/-- C10: there are a text and a context neither of which contains any
Signal-Table keyword on its own, yet `detect_frames` returns a non-empty
result: the detector scans `text.lower() + " " + context.lower()`, and the
two-word keyword "common sense" matches across the junction of
text "common" and context "sense". -/
theorem junction_match_exists :
    ∃ text ctx : String,
      (∀ e ∈ FRAME_SIGNALS, ∀ s ∈ e.signals,
          occursIn s.data (lowerList text.data) = false
        ∧ occursIn s.data (lowerList ctx.data) = false)
    ∧ detect_frames text ctx ≠ [] :=
  ⟨txtCommon, txtSense, by decide, by decide⟩

end SkeletonKey
